import Mathlib

/-!
Shallow embedding of `src/virtual_stepper.c` (Klipper virtual stepper driver).

Machine integers are modelled as `Nat` (unsigned) and `Int` (signed) with
explicit reduction mod 2^32, 2^16 or 2^8 where the C code wraps.  A fault
(the C `shutdown()` call, which never returns) is modelled as an
`Except.error` carrying the fault string together with the system state at
the moment the fault is raised.  The external move-descriptor pool is
modelled by a counter `liveMoves` of descriptors allocated and not yet
freed; the external timer scheduler is modelled by the boolean `armed`.
-/

set_option maxRecDepth 8000

/-- One queued ramp segment, mirroring `struct virtual_stepper_move`:
`interval : uint32_t`, `add : int16_t`, `count : uint16_t`,
`flags : uint8_t`.  The `next` pointer is modelled by list structure. -/
structure virtual_stepper_move where
  interval : Nat
  add : Int
  count : Nat
  flags : Nat
deriving DecidableEq

/-- Bit `MF_DIR = 1<<0` of a move's `flags`. -/
def MF_DIR : Nat := 1

/-- Bit `SF_CURRENT_DIR = 1<<0` of the stepper's `flags`. -/
def SF_CURRENT_DIR : Nat := 1

/-- Bit `SF_NEXT_DIR = 1<<1` of the stepper's `flags`. -/
def SF_NEXT_DIR : Nat := 2

/-- Per-axis record mirroring `struct virtual_stepper`.  `waketime` is the
embedded timer's `time.waketime` (uint32_t); `interval : uint32_t`,
`add : int16_t`, `count : uint16_t`, `position : uint32_t`,
`flags : uint8_t`.  The `first`/`plast` singly linked queue is modelled as
a list (`plast` is only the O(1) tail-append pointer). -/
structure virtual_stepper where
  waketime : Nat
  interval : Nat
  add : Int
  count : Nat
  position : Nat
  first : List virtual_stepper_move
  flags : Nat
deriving DecidableEq

/-- The stepper together with the state of its external collaborators:
`armed` is the timer scheduler's view (`sched_add_timer`/`sched_del_timer`
and the callback's return value), `liveMoves` counts descriptors obtained
from the move pool (`move_alloc`) and not yet returned (`move_free`). -/
structure SysState where
  s : virtual_stepper
  armed : Bool
  liveMoves : Nat
deriving DecidableEq

/-- Return value of a timer callback (`sched.h`). -/
inductive TimerResult where
  | SF_DONE
  | SF_RESCHEDULE
deriving DecidableEq

/-- C semantics of `uint32 + int16`: the signed addend is added and the
result reduced mod 2^32. -/
def u32add_signed (a : Nat) (d : Int) : Nat :=
  (((a : Int) + d).emod 4294967296).toNat

/-- Mirrors `virtual_stepper_load_next`: if the queue is empty set
`count = 0` and report `SF_DONE`; otherwise advance `waketime` by the
head's `interval`, install `add`, set `interval` to
`m->interval + m->add`, install `count`, copy the move's direction bit
into `SF_CURRENT_DIR` (`(s->flags & ~SF_CURRENT_DIR) | m->flags`, with
`~SF_CURRENT_DIR = 254` on `uint8_t`), pop the head and `move_free` it. -/
def virtual_stepper_load_next (st : SysState) : SysState × TimerResult :=
  match st.s.first with
  | [] => ({ st with s := { st.s with count := 0 } }, .SF_DONE)
  | m :: rest =>
    ({ st with
        s := { st.s with
          waketime := (st.s.waketime + m.interval) % 4294967296,
          add := m.add,
          interval := u32add_signed m.interval m.add,
          count := m.count,
          flags := (st.s.flags &&& 254) ||| m.flags,
          first := rest },
        liveMoves := st.liveMoves - 1 },
      .SF_RESCHEDULE)

/-- Mirrors `virtual_stepper_event` (the timer callback): step position by
one in the current direction (uint32 wraparound), decrement the remaining
count (uint16); while the remainder is nonzero advance `waketime` by
`interval` and ramp `interval += add`, otherwise load the next move. -/
def virtual_stepper_event (st : SysState) : SysState × TimerResult :=
  let position :=
    if st.s.flags &&& SF_CURRENT_DIR ≠ 0 then (st.s.position + 1) % 4294967296
    else (st.s.position + 4294967295) % 4294967296
  let count := (st.s.count + 65535) % 65536
  let st1 : SysState := { st with s := { st.s with position := position } }
  if count ≠ 0 then
    ({ st1 with s := { st1.s with
        count := count,
        waketime := (st1.s.waketime + st1.s.interval) % 4294967296,
        interval := u32add_signed st1.s.interval st1.s.add } },
      .SF_RESCHEDULE)
  else
    virtual_stepper_load_next st1

/-- The scheduler's handling of one timer expiry: the callback runs and
the timer stays armed exactly when it returns `SF_RESCHEDULE`. -/
def fire_event (st : SysState) : SysState :=
  match virtual_stepper_event st with
  | (st1, .SF_RESCHEDULE) => { st1 with armed := true }
  | (st1, .SF_DONE) => { st1 with armed := false }

/-- Freshly configured stepper (`command_config_virtual_stepper`):
`oid_alloc` zero-fills the structure and the timer is not armed. -/
def configState : SysState :=
  { s := { waketime := 0, interval := 0, add := 0, count := 0, position := 0,
           first := [], flags := 0 },
    armed := false, liveMoves := 0 }

/-- Mirrors `command_virtual_queue_step`: allocate a descriptor, fault on
`count == 0`, record the direction from the `SF_NEXT_DIR` flag, then
either append to the queue (stepper active) or load directly and arm the
timer (stepper idle). -/
def command_virtual_queue_step (st : SysState) (interval count : Nat) (add : Int) :
    Except (String × SysState) SysState :=
  let st0 : SysState := { st with liveMoves := st.liveMoves + 1 }
  if count = 0 then
    .error ("Invalid count parameter", st0)
  else
    let mflags := if st0.s.flags &&& SF_NEXT_DIR ≠ 0 then MF_DIR else 0
    let m : virtual_stepper_move :=
      { interval := interval, count := count, add := add, flags := mflags }
    if st0.s.count ≠ 0 then
      .ok { st0 with s := { st0.s with first := st0.s.first ++ [m] } }
    else
      let st1 : SysState := { st0 with s := { st0.s with first := [m] } }
      .ok { (virtual_stepper_load_next st1).1 with armed := true }

/-- Mirrors `command_virtual_set_next_step_dir`:
`s->flags = (s->flags & ~SF_NEXT_DIR) | nextdir`, with
`~SF_NEXT_DIR = 253` on `uint8_t`. -/
def command_virtual_set_next_step_dir (st : SysState) (dir : Nat) : SysState :=
  let nextdir := if dir ≠ 0 then SF_NEXT_DIR else 0
  { st with s := { st.s with flags := (st.s.flags &&& 253) ||| nextdir } }

/-- Mirrors `command_virtual_reset_step_clock`: fault while the stepper is
active, otherwise set `waketime`. -/
def command_virtual_reset_step_clock (st : SysState) (waketime : Nat) :
    Except (String × SysState) SysState :=
  if st.s.count ≠ 0 then
    .error ("Can't reset time when stepper active", st)
  else
    .ok { st with s := { st.s with waketime := waketime } }

/-- The `while (s->first)` loop of `virtual_stepper_stop`: each queued
descriptor is handed back to the pool with `move_free`. -/
def free_queue : List virtual_stepper_move → Nat → Nat
  | [], live => live
  | _ :: rest, live => free_queue rest (live - 1)

/-- Mirrors `virtual_stepper_stop`: `sched_del_timer`, zero `waketime`,
`count` and `flags`, and free every queued descriptor. -/
def virtual_stepper_stop (st : SysState) : SysState :=
  { s := { st.s with waketime := 0, count := 0, flags := 0, first := [] },
    armed := false,
    liveMoves := free_queue st.s.first st.liveMoves }

/-- Mirrors `virtual_stepper_shutdown`: for every configured stepper, set
`s->first = NULL` and then call `virtual_stepper_stop`. -/
def virtual_stepper_shutdown (steppers : List SysState) : List SysState :=
  steppers.map fun st =>
    virtual_stepper_stop { st with s := { st.s with first := [] } }

/-- Extract the success state of a handler call, with a default. -/
def okOr (e : Except (String × SysState) SysState) (d : SysState) : SysState :=
  match e with
  | .ok st => st
  | .error _ => d

/-- Extract the state at the moment a fault was raised, with a default. -/
def errStateOr (e : Except (String × SysState) SysState) (d : SysState) : SysState :=
  match e with
  | .error (_, st) => st
  | .ok _ => d

/-- Run the timer scheduler: fire events while the timer is armed, up to
`fuel` of them, returning the final state and the number of invocations of
`virtual_stepper_event`. -/
def run_events : Nat → SysState → SysState × Nat
  | 0, st => (st, 0)
  | fuel + 1, st =>
    if st.armed then
      let r := run_events fuel (fire_event st)
      (r.1, r.2 + 1)
    else
      (st, 0)

/-- One external enqueue request: direction selected with
`virtual_set_next_step_dir`, then the move parameters for
`virtual_queue_step`. -/
structure MoveRequest where
  interval : Nat
  count : Nat
  add : Int
  dir : Bool
deriving DecidableEq

/-- The descriptor that `command_virtual_queue_step` builds for a request
issued right after `command_virtual_set_next_step_dir` with its `dir`. -/
def recorded (r : MoveRequest) : virtual_stepper_move :=
  { interval := r.interval, add := r.add, count := r.count,
    flags := if r.dir then MF_DIR else 0 }

/-- Issue a list of requests in order: for each, set the next direction
and enqueue; stop at the first fault. -/
def enqueue_all (st : SysState) : List MoveRequest → Except (String × SysState) SysState
  | [] => .ok st
  | r :: rs =>
    match command_virtual_queue_step
        (command_virtual_set_next_step_dir st (if r.dir then 1 else 0))
        r.interval r.count r.add with
    | .ok st1 => enqueue_all st1 rs
    | .error e => .error e

/-- Total number of steps requested by a list of requests. -/
def totalCounts (rs : List MoveRequest) : Nat :=
  (rs.map fun r => r.count).sum

/-- Signed step total of a list of requests: `+count` for direction 1,
`-count` for direction 0. -/
def signedSum (rs : List MoveRequest) : Int :=
  (rs.map fun r => if r.dir then (r.count : Int) else -(r.count : Int)).sum

/-- Signed contribution of `c` steps taken with stepper flags `f`. -/
def dirDelta (f : Nat) (c : Nat) : Int :=
  if f &&& SF_CURRENT_DIR ≠ 0 then (c : Int) else -(c : Int)

/-- Signed step total of the queued descriptors. -/
def queueDelta (q : List virtual_stepper_move) : Int :=
  (q.map fun m => dirDelta m.flags m.count).sum

/-- Total step count of the queued descriptors. -/
def queueCounts (q : List virtual_stepper_move) : Nat :=
  (q.map fun m => m.count).sum

/-- Enqueue then run: the composite used to state end-to-end properties.
On a fault during the enqueue phase no event runs. -/
def runScenario (st : SysState) (rs : List MoveRequest) (fuel : Nat) : SysState × Nat :=
  match enqueue_all st rs with
  | .ok st1 => run_events fuel st1
  | .error (_, st1) => (st1, 0)

/-- Whether a handler call completed without fault. -/
def handlerOk (e : Except (String × SysState) SysState) : Bool :=
  match e with
  | .ok _ => true
  | .error _ => false

/-- A concrete active stepper used to exercise the active-state branches:
one move in progress (`count = 2`), timer armed, empty queue. -/
def activeDemo : SysState :=
  { s := { waketime := 1000, interval := 500, add := 0, count := 2, position := 0,
           first := [], flags := 1 },
    armed := true, liveMoves := 1 }

/-- States reachable from a freshly configured stepper by the boundary
operations, with argument bounds from the wire formats (`interval=%u`,
`count=%hu`, `add=%hi`).  Timer events occur only while the timer is
armed; a faulting handler call halts the device, so only `.ok` results
continue the machine. -/
inductive Reachable : SysState → Prop where
  | config : Reachable configState
  | queue_step {st st' : SysState} {interval count : Nat} {add : Int} :
      Reachable st → interval < 4294967296 → count < 65536 →
      -32768 ≤ add → add < 32768 →
      command_virtual_queue_step st interval count add = .ok st' →
      Reachable st'
  | set_dir {st : SysState} (dir : Nat) :
      Reachable st → Reachable (command_virtual_set_next_step_dir st dir)
  | reset_clock {st st' : SysState} {waketime : Nat} :
      Reachable st → waketime < 4294967296 →
      command_virtual_reset_step_clock st waketime = .ok st' →
      Reachable st'
  | event {st : SysState} :
      Reachable st → st.armed = true → Reachable (fire_event st)
  | stop {st : SysState} :
      Reachable st → Reachable (virtual_stepper_stop st)

/-- The one-step position update performed by the timer callback: +1 or
-1 mod 2^32 according to the current-direction bit. -/
def posStep (s : virtual_stepper) : Nat :=
  if s.flags &&& SF_CURRENT_DIR ≠ 0 then (s.position + 1) % 4294967296
  else (s.position + 4294967295) % 4294967296

/-- A stepper in mid-move with one descriptor (interval 1000, add 100,
count 2, direction bit 0) waiting in its queue. -/
def loadDemo : SysState :=
  { s := { waketime := 100, interval := 0, add := 0, count := 1, position := 0,
           first := [{ interval := 1000, add := 100, count := 2, flags := 0 }],
           flags := 0 },
    armed := true, liveMoves := 2 }

/-- A stepper with an active move and one queued descriptor: two live
descriptors in total (the active one was already freed at load). -/
def queuedDemo : SysState :=
  { s := { waketime := 5, interval := 400, add := 0, count := 2, position := 0,
           first := [{ interval := 100, add := 0, count := 1, flags := 0 }],
           flags := 0 },
    armed := true, liveMoves := 2 }

/-- Direction-change trace: enqueue a one-step move with next-direction 0
(it is loaded immediately). -/
def stC2a : SysState :=
  okOr (command_virtual_queue_step
    (command_virtual_set_next_step_dir configState 0) 10 1 0) configState

/-- Direction-change trace: enqueue a second one-step move while the first
is active; its direction bit is recorded from the still-clear
next-direction flag. -/
def stC2b : SysState := okOr (command_virtual_queue_step stC2a 10 1 0) stC2a

/-- Direction-change trace: request direction 1 while the first move is
active and the second is already queued but not yet loaded. -/
def stC2c : SysState := command_virtual_set_next_step_dir stC2b 1

/-- Direction-change trace: the first event consumes the first move and
loads the second. -/
def stC2d : SysState := fire_event stC2c

/-- Direction-change trace: the second event executes the second move. -/
def stC2e : SysState := fire_event stC2d

/-- Scenario B: from a fresh stepper, enqueue (1000, 1, 0) with
next-direction 0. -/
def stB1 : SysState :=
  okOr (command_virtual_queue_step
    (command_virtual_set_next_step_dir configState 0) 1000 1 0) configState

/-- Scenario B: before the first event fires, enqueue (2000, 3, 100) with
next-direction 1. -/
def stB2 : SysState :=
  okOr (command_virtual_queue_step
    (command_virtual_set_next_step_dir stB1 1) 2000 3 100) stB1

/-- Scenario B after the first timer event. -/
def stB3 : SysState := fire_event stB2

/-- Scenario B after the second timer event. -/
def stB4 : SysState := fire_event stB3

/-- Scenario B after the third timer event. -/
def stB5 : SysState := fire_event stB4

/-- Scenario B after the fourth timer event. -/
def stB6 : SysState := fire_event stB5

/-- Result of a set-direction + enqueue pair issued to an idle stepper:
the descriptor is loaded immediately and the timer armed (the allocated
descriptor is also immediately freed, so `liveMoves` is unchanged). -/
def loadedState (st : SysState) (r : MoveRequest) : SysState :=
  { st with
    liveMoves := st.liveMoves,
    armed := true,
    s := { st.s with
      waketime := (st.s.waketime + r.interval) % 4294967296,
      add := r.add,
      interval := u32add_signed r.interval r.add,
      count := r.count,
      flags := (((st.s.flags &&& 253) ||| (if r.dir then SF_NEXT_DIR else 0))
        &&& 254) ||| (if r.dir then MF_DIR else 0),
      first := [] } }

/-- Result of a set-direction + enqueue pair issued to an active stepper:
the descriptor is appended to the queue with its recorded direction. -/
def appendedState (st : SysState) (r : MoveRequest) : SysState :=
  { st with
    liveMoves := st.liveMoves + 1,
    s := { st.s with
      flags := (st.s.flags &&& 253) ||| (if r.dir then SF_NEXT_DIR else 0),
      first := st.s.first ++ [recorded r] } }

/-- Structural invariant maintained by every boundary operation: the
idle/armed correspondence, the uint16 bound on the remaining count, and
well-formedness of every queued descriptor (validated at enqueue). -/
def StepInv (st : SysState) : Prop :=
  (st.s.count = 0 ↔ st.armed = false) ∧ st.s.count < 65536 ∧
    ∀ m ∈ st.s.first, 0 < m.count ∧ m.count < 65536

/-! ## Helper lemmas -/

theorem free_queue_eq (q : List virtual_stepper_move) :
    ∀ live, free_queue q live = live - q.length := by
  induction q with
  | nil => intro live; rfl
  | cons m rest ih =>
    intro live
    rw [free_queue, ih]
    simp [List.length_cons]
    omega

theorem load_flags_bit (f mf : Nat) (hf : f < 4) (hmf : mf < 2) :
    ((f &&& 254) ||| mf) &&& SF_CURRENT_DIR = mf := by
  interval_cases f <;> interval_cases mf <;> decide

theorem load_flags_lt (f mf : Nat) (hf : f < 4) (hmf : mf < 2) :
    ((f &&& 254) ||| mf) < 4 := by
  interval_cases f <;> interval_cases mf <;> decide

theorem setdir_flags_bit (f nd : Nat) (hf : f < 4) (hnd : nd = 0 ∨ nd = 2) :
    ((f &&& 253) ||| nd) &&& SF_CURRENT_DIR = f &&& SF_CURRENT_DIR ∧
      ((f &&& 253) ||| nd) < 4 := by
  rcases hnd with h | h <;> subst h <;> interval_cases f <;> exact ⟨by decide, by decide⟩

theorem setdir_next_bit (f : Nat) (hf : f < 4) (d : Bool) :
    (if ((f &&& 253) ||| (if d then SF_NEXT_DIR else 0)) &&& SF_NEXT_DIR ≠ 0
      then MF_DIR else 0) = (if d then MF_DIR else 0) := by
  cases d <;> interval_cases f <;> decide

/-! ## Claim theorems (first batch) -/

/-- C5: enqueuing with `count == 0` always raises the configuration-error
fault, and at the moment the fault is raised the stepper's queue and
active-move fields (`interval`, `add`, `count`, `wake_time`, `flags`,
`position`) and the timer state are exactly as before the call. -/
theorem c5_queue_step_zero_count_faults (st : SysState) (interval : Nat) (add : Int) :
    command_virtual_queue_step st interval 0 add =
      .error ("Invalid count parameter", { st with liveMoves := st.liveMoves + 1 }) ∧
    ({ st with liveMoves := st.liveMoves + 1 } : SysState).s = st.s ∧
    ({ st with liveMoves := st.liveMoves + 1 } : SysState).armed = st.armed := by
  refine ⟨?_, rfl, rfl⟩
  simp [command_virtual_queue_step]

/-- C10: on `count == 0` the enqueue handler faults while still holding
the descriptor it got from the pool: the fault state has one more live
descriptor, the queue (and all stepper fields) unchanged, so the
descriptor is neither linked into the queue nor released. -/
theorem c10_fault_holds_descriptor (st : SysState) (interval : Nat) (add : Int) :
    handlerOk (command_virtual_queue_step st interval 0 add) = false ∧
    (errStateOr (command_virtual_queue_step st interval 0 add) st).s = st.s ∧
    (errStateOr (command_virtual_queue_step st interval 0 add) st).s.first = st.s.first ∧
    (errStateOr (command_virtual_queue_step st interval 0 add) st).liveMoves
      = st.liveMoves + 1 := by
  refine ⟨?_, ?_, ?_, ?_⟩ <;> simp [command_virtual_queue_step, handlerOk, errStateOr]

/-- C6: `reset_clock` sets `wake_time` to exactly the given time and
changes nothing else when the stepper is idle (`count == 0`); when the
stepper is active it always faults with the state unchanged. -/
theorem c6_reset_clock (st : SysState) (t : Nat) :
    (st.s.count = 0 →
      command_virtual_reset_step_clock st t =
        .ok { st with s := { st.s with waketime := t } }) ∧
    (st.s.count ≠ 0 →
      command_virtual_reset_step_clock st t =
        .error ("Can't reset time when stepper active", st)) := by
  constructor
  · intro h; simp [command_virtual_reset_step_clock, h]
  · intro h; simp [command_virtual_reset_step_clock, h]

/-- C6 witness: instantiated at an idle stepper (`configState`) and at an
active one (`activeDemo`). -/
theorem c6_reset_clock_witness :
    (command_virtual_reset_step_clock configState 7 =
      .ok { configState with s := { configState.s with waketime := 7 } }) ∧
    (command_virtual_reset_step_clock activeDemo 7 =
      .error ("Can't reset time when stepper active", activeDemo)) :=
  ⟨(c6_reset_clock configState 7).1 rfl,
   (c6_reset_clock activeDemo 7).2 (by decide)⟩

/-- C7: `Stop()` in any state disarms the timer, zeroes `count`,
`wake_time` and `flags`, empties the queue, releases every queued
descriptor back to the pool, and is idempotent. -/
theorem c7_stop_idempotent (st : SysState) :
    (virtual_stepper_stop st).armed = false ∧
    (virtual_stepper_stop st).s.count = 0 ∧
    (virtual_stepper_stop st).s.waketime = 0 ∧
    (virtual_stepper_stop st).s.flags = 0 ∧
    (virtual_stepper_stop st).s.first = [] ∧
    (virtual_stepper_stop st).liveMoves = st.liveMoves - st.s.first.length ∧
    virtual_stepper_stop (virtual_stepper_stop st) = virtual_stepper_stop st := by
  refine ⟨rfl, rfl, rfl, rfl, rfl, ?_, rfl⟩
  simp [virtual_stepper_stop, free_queue_eq]

/-- C3 counterexample: loading the descriptor (interval = 1000, add = 100,
count = 2) sets the stepper's `interval` field to 1100, not to the
descriptor's `interval` of 1000: the code stores `m->interval + m->add`. -/
theorem c3_counterexample :
    (virtual_stepper_load_next loadDemo).1.s.interval = 1100 ∧
      (virtual_stepper_load_next loadDemo).1.s.interval ≠ 1000 := by decide

/-- C3 (amended): whenever a descriptor (I, A, N, D) is loaded, the
wake time advances by exactly I (mod 2^32), the active-move fields become
`add = A`, `count = N` and `interval = (I + A) mod 2^32` (not I), the
current-direction bit becomes the descriptor's direction bit D, and the
popped descriptor is released back to the pool. -/
theorem c3_load_installs (st : SysState) (m : virtual_stepper_move)
    (rest : List virtual_stepper_move)
    (hq : st.s.first = m :: rest) (hf : st.s.flags < 4) (hmf : m.flags < 2) :
    virtual_stepper_load_next st =
      ({ st with
          s := { st.s with
            waketime := (st.s.waketime + m.interval) % 4294967296,
            add := m.add,
            interval := u32add_signed m.interval m.add,
            count := m.count,
            flags := (st.s.flags &&& 254) ||| m.flags,
            first := rest },
          liveMoves := st.liveMoves - 1 }, .SF_RESCHEDULE) ∧
    (virtual_stepper_load_next st).1.s.flags &&& SF_CURRENT_DIR = m.flags ∧
    (virtual_stepper_load_next st).1.liveMoves = st.liveMoves - 1 := by
  have h1 : virtual_stepper_load_next st =
      ({ st with
          s := { st.s with
            waketime := (st.s.waketime + m.interval) % 4294967296,
            add := m.add,
            interval := u32add_signed m.interval m.add,
            count := m.count,
            flags := (st.s.flags &&& 254) ||| m.flags,
            first := rest },
          liveMoves := st.liveMoves - 1 }, .SF_RESCHEDULE) := by
    rw [virtual_stepper_load_next, hq]
  refine ⟨h1, ?_, ?_⟩
  · rw [h1]
    exact load_flags_bit st.s.flags m.flags hf hmf
  · rw [h1]

/-- C3 witness: the amended load theorem applied to the concrete stepper
`loadDemo` and its queued descriptor. -/
theorem c3_load_installs_witness :
    virtual_stepper_load_next loadDemo =
      ({ loadDemo with
          s := { loadDemo.s with
            waketime := (loadDemo.s.waketime + 1000) % 4294967296,
            add := 100,
            interval := u32add_signed 1000 100,
            count := 2,
            flags := (loadDemo.s.flags &&& 254) ||| 0,
            first := [] },
          liveMoves := loadDemo.liveMoves - 1 }, .SF_RESCHEDULE) ∧
    (virtual_stepper_load_next loadDemo).1.s.flags &&& SF_CURRENT_DIR = 0 ∧
    (virtual_stepper_load_next loadDemo).1.liveMoves = loadDemo.liveMoves - 1 :=
  c3_load_installs loadDemo
    { interval := 1000, add := 100, count := 2, flags := 0 } [] rfl
    (by decide) (by decide)

/-- C8 counterexample: `virtual_stepper_shutdown` clears `s->first` before
calling stop, so the queued descriptor of `queuedDemo` is NOT released
back to the pool: the live-descriptor count stays 2, while releasing every
queued descriptor (as a plain stop does) would leave 1. -/
theorem c8_counterexample :
    virtual_stepper_shutdown [queuedDemo] =
      [{ s := { waketime := 0, interval := 400, add := 0, count := 0,
                position := 0, first := [], flags := 0 },
         armed := false, liveMoves := 2 }] ∧
    (virtual_stepper_stop queuedDemo).liveMoves = 1 ∧ (2 : Nat) ≠ 1 := by decide

/-- C8 (amended): on global shutdown every configured stepper is
force-stopped: timer disarmed, `count`, `wake_time` and `flags` zeroed,
queue left empty — but the queue is emptied by clearing the head pointer
before the stop runs, so descriptors still queued at shutdown are not
individually released back to the pool (the live-descriptor count is
unchanged). -/
theorem c8_shutdown_force_stops (steppers : List SysState) :
    virtual_stepper_shutdown steppers =
      steppers.map fun st =>
        { s := { st.s with waketime := 0, count := 0, flags := 0, first := [] },
          armed := false, liveMoves := st.liveMoves } := rfl

/-- C2 counterexample: moves m1, m2 are enqueued with next-direction 0,
then `set_next_direction(1)` is issued while m1 is active and m2 is still
queued.  m2 is loaded AFTER the change yet executes with direction 0: the
current-direction bit after its load is 0 and both events decrement, so
the final position is 2^32 - 2 = 4294967294, whereas the claim predicts
the second event increments (final position 0). -/
theorem c2_counterexample :
    stC2d.s.flags &&& SF_CURRENT_DIR = 0 ∧
    stC2e.s.position = 4294967294 ∧ stC2e.s.position ≠ 0 := by decide

/-- C2 (amended): the direction bit a queued move executes with is the
value of the next-direction flag at the time the move is ENQUEUED, not at
load time: (i) enqueue-while-active appends a descriptor whose direction
bit is the next-direction flag of that moment; (ii) a later
`set_next_direction` changes neither the queued descriptors nor the
active move's fields or current direction, so it affects exactly the moves
enqueued after it; (iii) loading gives a move exactly its recorded bit. -/
theorem c2_direction_captured_at_enqueue (st : SysState)
    (interval count : Nat) (add : Int) (d : Nat)
    (m : virtual_stepper_move) (rest : List virtual_stepper_move)
    (hactive : st.s.count ≠ 0) (hcount : count ≠ 0)
    (hf : st.s.flags < 4) (hmf : m.flags < 2) (hq : st.s.first = m :: rest) :
    command_virtual_queue_step st interval count add =
      .ok { st with
        liveMoves := st.liveMoves + 1,
        s := { st.s with first := st.s.first ++
          [{ interval := interval, count := count, add := add,
             flags := if st.s.flags &&& SF_NEXT_DIR ≠ 0 then MF_DIR else 0 }] } } ∧
    (command_virtual_set_next_step_dir st d).s.first = st.s.first ∧
    (command_virtual_set_next_step_dir st d).s.flags &&& SF_CURRENT_DIR
      = st.s.flags &&& SF_CURRENT_DIR ∧
    (command_virtual_set_next_step_dir st d).s.count = st.s.count ∧
    (command_virtual_set_next_step_dir st d).s.interval = st.s.interval ∧
    (command_virtual_set_next_step_dir st d).s.add = st.s.add ∧
    (command_virtual_set_next_step_dir st d).s.position = st.s.position ∧
    (virtual_stepper_load_next st).1.s.flags &&& SF_CURRENT_DIR = m.flags := by
  refine ⟨?_, rfl, ?_, rfl, rfl, rfl, rfl, ?_⟩
  · simp [command_virtual_queue_step, hcount, hactive]
  · exact (setdir_flags_bit st.s.flags (if d ≠ 0 then SF_NEXT_DIR else 0) hf
      (by by_cases hd : d ≠ 0 <;> simp [hd, SF_NEXT_DIR])).1
  · rw [virtual_stepper_load_next, hq]
    exact load_flags_bit st.s.flags m.flags hf hmf

/-- C2 witness: the amended theorem applied to `queuedDemo` (active move,
one queued descriptor with direction bit 0). -/
theorem c2_direction_captured_at_enqueue_witness :
    command_virtual_queue_step queuedDemo 100 5 0 =
      .ok { queuedDemo with
        liveMoves := queuedDemo.liveMoves + 1,
        s := { queuedDemo.s with first := queuedDemo.s.first ++
          [{ interval := 100, count := 5, add := 0,
             flags := if queuedDemo.s.flags &&& SF_NEXT_DIR ≠ 0
               then MF_DIR else 0 }] } } ∧
    (command_virtual_set_next_step_dir queuedDemo 1).s.first
      = queuedDemo.s.first ∧
    (command_virtual_set_next_step_dir queuedDemo 1).s.flags &&& SF_CURRENT_DIR
      = queuedDemo.s.flags &&& SF_CURRENT_DIR ∧
    (command_virtual_set_next_step_dir queuedDemo 1).s.count
      = queuedDemo.s.count ∧
    (command_virtual_set_next_step_dir queuedDemo 1).s.interval
      = queuedDemo.s.interval ∧
    (command_virtual_set_next_step_dir queuedDemo 1).s.add
      = queuedDemo.s.add ∧
    (command_virtual_set_next_step_dir queuedDemo 1).s.position
      = queuedDemo.s.position ∧
    (virtual_stepper_load_next queuedDemo).1.s.flags &&& SF_CURRENT_DIR = 0 :=
  c2_direction_captured_at_enqueue queuedDemo 100 5 0 1
    { interval := 100, add := 0, count := 1, flags := 0 } []
    (by decide) (by decide) (by decide) (by decide) rfl

/-- C4: Scenario B.  From an idle stepper, enqueue (1000, 1, 0) with
next-direction 0, then before the first event enqueue (2000, 3, 100) with
next-direction 1.  Both enqueues succeed; the first event fires at tick
1000 and decrements position (0 - 1 mod 2^32); the reload advances the
wake time by exactly 2000; the inter-step intervals of the three
following events are 2000, 2100 and 2200 ticks; position is incremented
three times, for a net change of +2; afterwards the stepper is idle with
an empty queue. -/
theorem c4_scenario_b :
    handlerOk (command_virtual_queue_step
      (command_virtual_set_next_step_dir configState 0) 1000 1 0) = true ∧
    handlerOk (command_virtual_queue_step
      (command_virtual_set_next_step_dir stB1 1) 2000 3 100) = true ∧
    stB2.s.waketime = 1000 ∧
    stB3.s.position = 4294967295 ∧
    stB3.s.waketime = stB2.s.waketime + 2000 ∧
    stB4.s.waketime = stB3.s.waketime + 2100 ∧
    stB5.s.waketime = stB4.s.waketime + 2200 ∧
    stB4.s.position = 0 ∧
    stB5.s.position = 1 ∧
    stB6.s.position = 2 ∧
    stB6.s.count = 0 ∧ stB6.armed = false ∧ stB6.s.first = [] := by decide

/-! ## Characterization lemmas for the timer callback and handlers -/

theorem run_events_done (fuel : Nat) (st : SysState) (h : st.armed = false) :
    run_events fuel st = (st, 0) := by
  cases fuel <;> simp [run_events, h]

theorem fire_event_position (st : SysState) :
    (fire_event st).s.position = posStep st.s := by
  unfold fire_event virtual_stepper_event virtual_stepper_load_next posStep
  by_cases hc : (st.s.count + 65535) % 65536 ≠ 0
  · simp [hc]
  · simp only [hc, if_false, ite_false]
    cases hq : st.s.first <;> simp [hq]

theorem fire_event_pos_pm (st : SysState) :
    (fire_event st).s.position = (st.s.position + 1) % 4294967296 ∨
    (fire_event st).s.position = (st.s.position + 4294967295) % 4294967296 := by
  rw [fire_event_position]
  unfold posStep
  by_cases hd : st.s.flags &&& SF_CURRENT_DIR ≠ 0
  · left; simp [hd]
  · right; simp [hd]

theorem fire_event_step (st : SysState) (h1 : 2 ≤ st.s.count)
    (h2 : st.s.count < 65536) :
    fire_event st =
      { st with
        s := { st.s with
          position := posStep st.s,
          count := st.s.count - 1,
          waketime := (st.s.waketime + st.s.interval) % 4294967296,
          interval := u32add_signed st.s.interval st.s.add },
        armed := true } := by
  have hcnt : (st.s.count + 65535) % 65536 = st.s.count - 1 := by omega
  have hne : ¬(st.s.count - 1 = 0) := by omega
  unfold fire_event virtual_stepper_event posStep
  simp only [hcnt, ne_eq, hne, not_false_eq_true, if_true, ite_true]

theorem fire_event_done (st : SysState) (h1 : st.s.count = 1)
    (hq : st.s.first = []) :
    fire_event st =
      { st with
        s := { st.s with position := posStep st.s, count := 0 },
        armed := false } := by
  have hcnt : (st.s.count + 65535) % 65536 = 0 := by omega
  unfold fire_event virtual_stepper_event virtual_stepper_load_next posStep
  simp [hcnt, hq]

theorem fire_event_reload (st : SysState) (m : virtual_stepper_move)
    (rest : List virtual_stepper_move) (h1 : st.s.count = 1)
    (hq : st.s.first = m :: rest) :
    fire_event st =
      { st with
        s := { st.s with
          position := posStep st.s,
          waketime := (st.s.waketime + m.interval) % 4294967296,
          add := m.add,
          interval := u32add_signed m.interval m.add,
          count := m.count,
          flags := (st.s.flags &&& 254) ||| m.flags,
          first := rest },
        armed := true,
        liveMoves := st.liveMoves - 1 } := by
  have hcnt : (st.s.count + 65535) % 65536 = 0 := by omega
  unfold fire_event virtual_stepper_event virtual_stepper_load_next posStep
  simp [hcnt, hq]

theorem queue_step_active (st : SysState) (interval count : Nat) (add : Int)
    (hc : count ≠ 0) (ha : st.s.count ≠ 0) :
    command_virtual_queue_step st interval count add =
      .ok { st with
        liveMoves := st.liveMoves + 1,
        s := { st.s with first := st.s.first ++
          [{ interval := interval, count := count, add := add,
             flags := if st.s.flags &&& SF_NEXT_DIR ≠ 0 then MF_DIR else 0 }] } } := by
  simp [command_virtual_queue_step, hc, ha]

theorem queue_step_idle (st : SysState) (interval count : Nat) (add : Int)
    (hc : count ≠ 0) (ha : st.s.count = 0) :
    command_virtual_queue_step st interval count add =
      .ok { st with
        liveMoves := st.liveMoves,
        armed := true,
        s := { st.s with
          waketime := (st.s.waketime + interval) % 4294967296,
          add := add,
          interval := u32add_signed interval add,
          count := count,
          flags := (st.s.flags &&& 254) |||
            (if st.s.flags &&& SF_NEXT_DIR ≠ 0 then MF_DIR else 0),
          first := [] } } := by
  simp [command_virtual_queue_step, hc, ha, virtual_stepper_load_next]

theorem reachable_inv (st : SysState) (h : Reachable st) : StepInv st := by
  induction h with
  | config =>
    refine ⟨by simp [configState], by simp [configState], ?_⟩
    intro m hm
    simp [configState] at hm
  | queue_step hst hi hc ha1 ha2 hok ih =>
    rename_i st1 st2 interval count add
    by_cases hc0 : count = 0
    · subst hc0
      simp [command_virtual_queue_step] at hok
    by_cases hact : st1.s.count ≠ 0
    · rw [queue_step_active st1 interval count add hc0 hact] at hok
      injection hok with hok
      subst hok
      refine ⟨ih.1, ih.2.1, ?_⟩
      intro m hm
      simp only [List.mem_append, List.mem_singleton] at hm
      rcases hm with hm | hm
      · exact ih.2.2 m hm
      · subst hm
        exact ⟨Nat.pos_of_ne_zero hc0, hc⟩
    · push_neg at hact
      rw [queue_step_idle st1 interval count add hc0 hact] at hok
      injection hok with hok
      subst hok
      refine ⟨by simp [hc0], hc, ?_⟩
      intro m hm
      simp at hm
  | set_dir d hst ih =>
    exact ih
  | reset_clock hst hw hok ih =>
    rename_i st1 st2 t
    by_cases hc0 : st1.s.count ≠ 0
    · simp [command_virtual_reset_step_clock, hc0] at hok
    · push_neg at hc0
      simp [command_virtual_reset_step_clock, hc0] at hok
      rw [← hok]
      refine ⟨by simp [ih.1.mp hc0], by simp, ?_⟩
      intro m hm
      exact ih.2.2 m hm
  | event hst harmed ih =>
    rename_i st1
    have hcne : st1.s.count ≠ 0 := by
      intro h0
      rw [ih.1.mp h0] at harmed
      cases harmed
    obtain ⟨ihiff, ihcnt, ihq⟩ := ih
    by_cases h2 : 2 ≤ st1.s.count
    · rw [fire_event_step st1 h2 ihcnt]
      refine ⟨by simp; omega, by simp; omega, ?_⟩
      intro m hm
      exact ihq m hm
    · have h1 : st1.s.count = 1 := by omega
      cases hq : st1.s.first with
      | nil =>
        rw [fire_event_done st1 h1 hq]
        refine ⟨by simp, by simp, ?_⟩
        intro m hm
        rw [hq] at hm
        simp at hm
      | cons m rest =>
        have hm := ihq m (by rw [hq]; exact List.mem_cons_self m rest)
        rw [fire_event_reload st1 m rest h1 hq]
        refine ⟨?_, hm.2, ?_⟩
        · have := hm.1
          simp
          omega
        · intro m2 hm2
          simp at hm2
          exact ihq m2 (by rw [hq]; exact List.mem_cons_of_mem m hm2)
  | stop hst ih =>
    refine ⟨by simp [virtual_stepper_stop], by simp [virtual_stepper_stop], ?_⟩
    intro m hm
    simp [virtual_stepper_stop] at hm

/-- C9: in every state reachable from the freshly configured stepper by
enqueue-move, set-next-direction, reset-clock, timer event and stop,
`count == 0` holds exactly when the timer is disarmed, and `count > 0`
holds exactly when the timer is armed for `wake_time`. -/
theorem c9_count_iff_armed (st : SysState) (h : Reachable st) :
    (st.s.count = 0 ↔ st.armed = false) ∧ (0 < st.s.count ↔ st.armed = true) := by
  have h1 := (reachable_inv st h).1
  refine ⟨h1, ?_⟩
  cases ha : st.armed
  · rw [ha] at h1
    simp at h1
    simp [h1, ha]
  · rw [ha] at h1
    simp at h1
    simp only [ha]
    simp
    omega

/-- C9 witness: the freshly configured stepper is reachable and idle with
a disarmed timer. -/
theorem c9_count_iff_armed_witness :
    (configState.s.count = 0 ↔ configState.armed = false) ∧
      (0 < configState.s.count ↔ configState.armed = true) :=
  c9_count_iff_armed configState Reachable.config

/-! ## Arithmetic and queue-accounting lemmas -/

theorem posStep_lt (s : virtual_stepper) : posStep s < 4294967296 := by
  unfold posStep
  split <;> exact Nat.mod_lt _ (by norm_num)

theorem posStep_pos (s : virtual_stepper) (hd : s.flags &&& SF_CURRENT_DIR ≠ 0) :
    posStep s = (s.position + 1) % 4294967296 := by
  simp [posStep, hd]

theorem posStep_neg (s : virtual_stepper) (hd : ¬s.flags &&& SF_CURRENT_DIR ≠ 0) :
    posStep s = (s.position + 4294967295) % 4294967296 := by
  simp [posStep, hd]

theorem dirDelta_pos (f c : Nat) (hd : f &&& SF_CURRENT_DIR ≠ 0) :
    dirDelta f c = (c : Int) := by
  simp [dirDelta, hd]

theorem dirDelta_neg (f c : Nat) (hd : ¬f &&& SF_CURRENT_DIR ≠ 0) :
    dirDelta f c = -(c : Int) := by
  simp [dirDelta, hd]

theorem dirDelta_congr (f1 f2 c : Nat)
    (h : f1 &&& SF_CURRENT_DIR = f2 &&& SF_CURRENT_DIR) :
    dirDelta f1 c = dirDelta f2 c := by
  unfold dirDelta
  rw [h]

theorem dirDelta_load (f mf c : Nat) (hf : f < 4) (hmf : mf < 2) :
    dirDelta ((f &&& 254) ||| mf) c = dirDelta mf c := by
  have hb := load_flags_bit f mf hf hmf
  unfold dirDelta
  rw [hb]
  interval_cases mf <;> simp [SF_CURRENT_DIR]

theorem dirDelta_recorded_bit (r : MoveRequest) (c : Nat) :
    dirDelta (if r.dir then MF_DIR else 0) c =
      (if r.dir then (c : Int) else -(c : Int)) := by
  cases r.dir <;> simp [dirDelta, MF_DIR, SF_CURRENT_DIR]

theorem queueCounts_cons (m : virtual_stepper_move)
    (q : List virtual_stepper_move) :
    queueCounts (m :: q) = m.count + queueCounts q := by
  simp [queueCounts]

theorem queueDelta_cons (m : virtual_stepper_move)
    (q : List virtual_stepper_move) :
    queueDelta (m :: q) = dirDelta m.flags m.count + queueDelta q := by
  simp [queueDelta]

theorem totalCounts_cons (r : MoveRequest) (rs : List MoveRequest) :
    totalCounts (r :: rs) = r.count + totalCounts rs := by
  simp [totalCounts]

theorem signedSum_cons (r : MoveRequest) (rs : List MoveRequest) :
    signedSum (r :: rs) =
      (if r.dir then (r.count : Int) else -(r.count : Int)) + signedSum rs := by
  simp [signedSum]

theorem queueCounts_recorded (rs : List MoveRequest) :
    queueCounts (rs.map recorded) = totalCounts rs := by
  induction rs with
  | nil => rfl
  | cons r rest ih =>
    rw [List.map_cons, queueCounts_cons, ih, totalCounts_cons]
    rfl

theorem queueDelta_recorded (rs : List MoveRequest) :
    queueDelta (rs.map recorded) = signedSum rs := by
  induction rs with
  | nil => rfl
  | cons r rest ih =>
    rw [List.map_cons, queueDelta_cons, ih, signedSum_cons]
    simp only [recorded]
    rw [dirDelta_recorded_bit]

theorem setdir_next_ne_true (f : Nat) (hf : f < 4) :
    ((f &&& 253) ||| SF_NEXT_DIR) &&& SF_NEXT_DIR ≠ 0 := by
  interval_cases f <;> decide

theorem setdir_next_eq_false (f : Nat) (hf : f < 4) :
    ((f &&& 253) ||| 0) &&& SF_NEXT_DIR = 0 := by
  interval_cases f <;> decide

theorem and253_and2 (f : Nat) (hf : f < 4) :
    f &&& 253 &&& SF_NEXT_DIR = 0 := by
  interval_cases f <;> decide

/-! ## Composite enqueue characterizations -/

theorem enqueue_one_active (st : SysState) (r : MoveRequest)
    (hc : r.count ≠ 0) (ha : st.s.count ≠ 0) (hf : st.s.flags < 4) :
    command_virtual_queue_step
      (command_virtual_set_next_step_dir st (if r.dir then 1 else 0))
      r.interval r.count r.add = .ok (appendedState st r) := by
  cases hr : r.dir <;>
    simp [command_virtual_set_next_step_dir, command_virtual_queue_step,
      appendedState, recorded, hc, ha, hr, MF_DIR,
      setdir_next_eq_false st.s.flags hf, setdir_next_ne_true st.s.flags hf,
      and253_and2 st.s.flags hf]

theorem enqueue_one_idle (st : SysState) (r : MoveRequest)
    (hc : r.count ≠ 0) (ha : st.s.count = 0) (hf : st.s.flags < 4) :
    command_virtual_queue_step
      (command_virtual_set_next_step_dir st (if r.dir then 1 else 0))
      r.interval r.count r.add = .ok (loadedState st r) := by
  cases hr : r.dir <;>
    simp [command_virtual_set_next_step_dir, command_virtual_queue_step,
      virtual_stepper_load_next, loadedState, hc, ha, hr, MF_DIR,
      setdir_next_eq_false st.s.flags hf, setdir_next_ne_true st.s.flags hf,
      and253_and2 st.s.flags hf]

theorem emod_cast_step_up (p : Nat) (d : Int) :
    ((((p + 1) % 4294967296 : Nat) : Int) + d) % 4294967296 =
      (((p : Int) + 1) + d) % 4294967296 := by
  have h1 : (((p + 1) % 4294967296 : Nat) : Int) =
      ((p : Int) + 1) % 4294967296 := by omega
  rw [h1, Int.emod_add_emod]

theorem emod_cast_step_down (p : Nat) (d : Int) :
    ((((p + 4294967295) % 4294967296 : Nat) : Int) + d) % 4294967296 =
      (((p : Int) - 1) + d) % 4294967296 := by
  have h1 : (((p + 4294967295) % 4294967296 : Nat) : Int) =
      ((p : Int) + 4294967295) % 4294967296 := by omega
  have h2 : ((p : Int) + 4294967295) + d =
      (((p : Int) - 1) + d) + 4294967296 * 1 := by ring
  rw [h1, Int.emod_add_emod, h2,
    Int.add_mul_emod_self_left (((p : Int) - 1) + d) 4294967296 1]

theorem emod_congr (a b : Int) (h : a = b) :
    a % 4294967296 = b % 4294967296 := by
  rw [h]

theorem enqueue_all_active : ∀ (rs : List MoveRequest) (st : SysState),
    st.s.count ≠ 0 → st.s.flags < 4 → (∀ r ∈ rs, r.count ≠ 0) →
    ∃ st', enqueue_all st rs = .ok st' ∧
      st'.s.first = st.s.first ++ rs.map recorded ∧
      st'.s.count = st.s.count ∧
      st'.s.position = st.s.position ∧
      st'.s.flags &&& SF_CURRENT_DIR = st.s.flags &&& SF_CURRENT_DIR ∧
      st'.s.flags < 4 ∧
      st'.armed = st.armed := by
  intro rs
  induction rs with
  | nil =>
    intro st h1 h2 h3
    exact ⟨st, rfl, by simp, rfl, rfl, rfl, h2, rfl⟩
  | cons r rest ih =>
    intro st h1 h2 h3
    have hnd : (if r.dir then SF_NEXT_DIR else 0) = 0 ∨
        (if r.dir then SF_NEXT_DIR else 0) = 2 := by
      cases r.dir <;> simp [SF_NEXT_DIR]
    have hsd := setdir_flags_bit st.s.flags (if r.dir then SF_NEXT_DIR else 0)
      h2 hnd
    obtain ⟨st', he, hfirst, hcount, hpos, hbit, hlt, harm⟩ :=
      ih (appendedState st r) h1 hsd.2
        (fun r2 hr2 => h3 r2 (List.mem_cons_of_mem r hr2))
    refine ⟨st', ?_, ?_, hcount, hpos, ?_, hlt, harm⟩
    · rw [enqueue_all,
        enqueue_one_active st r (h3 r (List.mem_cons_self r rest)) h1 h2]
      exact he
    · rw [hfirst]
      show (st.s.first ++ [recorded r]) ++ rest.map recorded = _
      rw [List.append_assoc]
      rfl
    · rw [hbit]
      exact hsd.1

theorem run_events_drain (fuel : Nat) : ∀ (st : SysState),
    st.armed = true → 0 < st.s.count → st.s.count < 65536 →
    st.s.position < 4294967296 → st.s.flags < 4 →
    (∀ m ∈ st.s.first, 0 < m.count ∧ m.count < 65536 ∧ m.flags < 2) →
    st.s.count + queueCounts st.s.first ≤ fuel →
    (run_events fuel st).2 = st.s.count + queueCounts st.s.first ∧
    (run_events fuel st).1.armed = false ∧
    (run_events fuel st).1.s.count = 0 ∧
    ((run_events fuel st).1.s.position : Int) =
      ((st.s.position : Int) + dirDelta st.s.flags st.s.count
        + queueDelta st.s.first) % 4294967296 := by
  induction fuel with
  | zero =>
    intro st h1 h2 h3 h4 h5 h6 hle
    exact absurd hle (by omega)
  | succ fuel ih =>
    intro st h1 h2 h3 h4 h5 h6 hle
    have hrun : run_events (fuel + 1) st =
        ((run_events fuel (fire_event st)).1,
          (run_events fuel (fire_event st)).2 + 1) := by
      rw [run_events, h1]
      simp
    by_cases hA : 2 ≤ st.s.count
    · have hstep := fire_event_step st hA h3
      obtain ⟨e1, e2, e3, e4⟩ := ih (fire_event st)
        (by rw [hstep])
        (by rw [hstep]; dsimp only; omega)
        (by rw [hstep]; dsimp only; omega)
        (by rw [hstep]; dsimp only; exact posStep_lt st.s)
        (by rw [hstep]; dsimp only; exact h5)
        (by rw [hstep]; dsimp only; exact h6)
        (by rw [hstep]; dsimp only; omega)
      rw [hrun]
      refine ⟨?_, e2, e3, ?_⟩
      · rw [e1, hstep]
        dsimp only
        omega
      · rw [e4, hstep]
        dsimp only
        by_cases hd : st.s.flags &&& SF_CURRENT_DIR ≠ 0
        · rw [posStep_pos st.s hd, dirDelta_pos st.s.flags (st.s.count - 1) hd,
            dirDelta_pos st.s.flags st.s.count hd, add_assoc,
            emod_cast_step_up st.s.position
              (((st.s.count - 1 : Nat) : Int) + queueDelta st.s.first)]
          exact emod_congr _ _ (by omega)
        · rw [posStep_neg st.s hd, dirDelta_neg st.s.flags (st.s.count - 1) hd,
            dirDelta_neg st.s.flags st.s.count hd, add_assoc,
            emod_cast_step_down st.s.position
              (-((st.s.count - 1 : Nat) : Int) + queueDelta st.s.first)]
          exact emod_congr _ _ (by omega)
    · have h1c : st.s.count = 1 := by omega
      cases hq : st.s.first with
      | nil =>
        have hstep := fire_event_done st h1c hq
        have hdone := run_events_done fuel (fire_event st) (by rw [hstep])
        rw [hrun, hdone]
        refine ⟨?_, by rw [hstep], by rw [hstep], ?_⟩
        · rw [h1c]
          simp [queueCounts]
        · rw [hstep]
          dsimp only
          rw [h1c]
          have hqd : queueDelta [] = 0 := rfl
          rw [hqd, add_zero]
          by_cases hd : st.s.flags &&& SF_CURRENT_DIR ≠ 0
          · rw [posStep_pos st.s hd, dirDelta_pos st.s.flags 1 hd]
            omega
          · rw [posStep_neg st.s hd, dirDelta_neg st.s.flags 1 hd]
            omega
      | cons m rest =>
        obtain ⟨hm1, hm2, hm3⟩ := h6 m (by rw [hq]; exact List.mem_cons_self m rest)
        have hstep := fire_event_reload st m rest h1c hq
        obtain ⟨e1, e2, e3, e4⟩ := ih (fire_event st)
          (by rw [hstep])
          (by rw [hstep]; dsimp only; omega)
          (by rw [hstep]; dsimp only; omega)
          (by rw [hstep]; dsimp only; exact posStep_lt st.s)
          (by rw [hstep]; dsimp only
              exact load_flags_lt st.s.flags m.flags h5 hm3)
          (by rw [hstep]; dsimp only
              intro m2 hm2x
              exact h6 m2 (by rw [hq]; exact List.mem_cons_of_mem m hm2x))
          (by rw [hstep]; dsimp only
              have hqc : queueCounts st.s.first = m.count + queueCounts rest := by
                rw [hq, queueCounts_cons]
              omega)
        rw [hrun]
        refine ⟨?_, e2, e3, ?_⟩
        · rw [e1, hstep]
          dsimp only
          rw [queueCounts_cons]
          omega
        · rw [e4, hstep]
          dsimp only
          rw [queueDelta_cons, h1c,
            dirDelta_load st.s.flags m.flags m.count h5 hm3]
          by_cases hd : st.s.flags &&& SF_CURRENT_DIR ≠ 0
          · rw [posStep_pos st.s hd, dirDelta_pos st.s.flags 1 hd, add_assoc,
              emod_cast_step_up st.s.position
                (dirDelta m.flags m.count + queueDelta rest)]
            exact emod_congr _ _ (by omega)
          · rw [posStep_neg st.s hd, dirDelta_neg st.s.flags 1 hd, add_assoc,
              emod_cast_step_down st.s.position
                (dirDelta m.flags m.count + queueDelta rest)]
            exact emod_congr _ _ (by omega)

/-- C1: starting from an idle stepper, enqueue any sequence of moves
(each with 0 < count < 2^16 and a chosen next-direction) and run the
timer until the stepper is idle again.  The number of invocations of the
timer callback equals the sum of the counts; the final position equals
the initial position plus the signed sum of the per-move step counts
(added when the move's direction bit is set, subtracted when clear)
mod 2^32; and every individual event changes position by exactly +1 or
-1 mod 2^32. -/
theorem c1_total_steps (st : SysState) (rs : List MoveRequest) (fuel : Nat)
    (stX : SysState)
    (hidle : st.s.count = 0) (hq0 : st.s.first = []) (harmed : st.armed = false)
    (hpos : st.s.position < 4294967296) (hf : st.s.flags < 4)
    (hrs : ∀ r ∈ rs, 0 < r.count ∧ r.count < 65536)
    (hfuel : totalCounts rs ≤ fuel) :
    handlerOk (enqueue_all st rs) = true ∧
    (runScenario st rs fuel).2 = totalCounts rs ∧
    (runScenario st rs fuel).1.armed = false ∧
    (runScenario st rs fuel).1.s.count = 0 ∧
    ((runScenario st rs fuel).1.s.position : Int) =
      ((st.s.position : Int) + signedSum rs) % 4294967296 ∧
    ((fire_event stX).s.position = (stX.s.position + 1) % 4294967296 ∨
      (fire_event stX).s.position =
        (stX.s.position + 4294967295) % 4294967296) := by
  cases rs with
  | nil =>
    have hdone := run_events_done fuel st harmed
    have hscen : runScenario st [] fuel = (st, 0) := by
      show run_events fuel st = (st, 0)
      exact hdone
    refine ⟨rfl, ?_, ?_, ?_, ?_, fire_event_pos_pm stX⟩
    · rw [hscen]
      rfl
    · rw [hscen]
      exact harmed
    · rw [hscen]
      exact hidle
    · rw [hscen]
      have h0 : signedSum ([] : List MoveRequest) = 0 := rfl
      rw [h0, add_zero]
      dsimp only
      omega
  | cons r rest =>
    obtain ⟨hrc, hrlt⟩ := hrs r (List.mem_cons_self r rest)
    have hcne : r.count ≠ 0 := by omega
    have hone := enqueue_one_idle st r hcne hidle hf
    have hnd : (if r.dir then SF_NEXT_DIR else 0) = 0 ∨
        (if r.dir then SF_NEXT_DIR else 0) = 2 := by
      cases r.dir <;> simp [SF_NEXT_DIR]
    have hmf2 : (if r.dir then MF_DIR else 0) < 2 := by
      cases r.dir <;> simp [MF_DIR]
    have hfl4 : (loadedState st r).s.flags < 4 :=
      load_flags_lt ((st.s.flags &&& 253) ||| (if r.dir then SF_NEXT_DIR else 0))
        (if r.dir then MF_DIR else 0)
        (setdir_flags_bit st.s.flags (if r.dir then SF_NEXT_DIR else 0) hf hnd).2
        hmf2
    have hflbit : (loadedState st r).s.flags &&& SF_CURRENT_DIR
        = (if r.dir then MF_DIR else 0) :=
      load_flags_bit ((st.s.flags &&& 253) ||| (if r.dir then SF_NEXT_DIR else 0))
        (if r.dir then MF_DIR else 0)
        (setdir_flags_bit st.s.flags (if r.dir then SF_NEXT_DIR else 0) hf hnd).2
        hmf2
    obtain ⟨st', he2, hfirst, hcount, hpos2, hbit, hlt4, harm2⟩ :=
      enqueue_all_active rest (loadedState st r) hcne hfl4
        (fun r2 hr2 => by
          have := (hrs r2 (List.mem_cons_of_mem r hr2)).1
          omega)
    have hall : enqueue_all st (r :: rest) = .ok st' := by
      rw [enqueue_all, hone]
      exact he2
    have hscen : runScenario st (r :: rest) fuel = run_events fuel st' := by
      rw [runScenario, hall]
    have hq' : ∀ m ∈ st'.s.first, 0 < m.count ∧ m.count < 65536 ∧ m.flags < 2 := by
      rw [hfirst]
      intro m hm
      have hnil : (loadedState st r).s.first = [] := rfl
      rw [hnil, List.nil_append] at hm
      obtain ⟨r2, hr2, hrec⟩ := List.mem_map.mp hm
      subst hrec
      obtain ⟨ha, hb⟩ := hrs r2 (List.mem_cons_of_mem r hr2)
      refine ⟨ha, hb, ?_⟩
      cases hr2d : r2.dir <;> simp [recorded, hr2d, MF_DIR]
    have hqc : queueCounts st'.s.first = totalCounts rest := by
      rw [hfirst]
      have hnil : (loadedState st r).s.first = [] := rfl
      rw [hnil, List.nil_append, queueCounts_recorded]
    have hqd : queueDelta st'.s.first = signedSum rest := by
      rw [hfirst]
      have hnil : (loadedState st r).s.first = [] := rfl
      rw [hnil, List.nil_append, queueDelta_recorded]
    have hcnt' : st'.s.count = r.count := hcount
    have hpos' : st'.s.position = st.s.position := hpos2
    have harm' : st'.armed = true := harm2
    obtain ⟨e1, e2, e3, e4⟩ := run_events_drain fuel st' harm'
      (by rw [hcnt']; omega)
      (by rw [hcnt']; omega)
      (by rw [hpos']; exact hpos)
      hlt4
      hq'
      (by rw [hcnt', hqc]
          have := totalCounts_cons r rest
          omega)
    have hmfand : (if r.dir then MF_DIR else 0) &&& SF_CURRENT_DIR
        = (if r.dir then MF_DIR else 0) := by
      cases r.dir <;> simp [MF_DIR, SF_CURRENT_DIR]
    refine ⟨?_, ?_, ?_, ?_, ?_, fire_event_pos_pm stX⟩
    · rw [hall]
      rfl
    · rw [hscen, e1, hcnt', hqc, totalCounts_cons]
    · rw [hscen]
      exact e2
    · rw [hscen]
      exact e3
    · rw [hscen, e4, hqd, hpos', hcnt']
      rw [dirDelta_congr st'.s.flags (if r.dir then MF_DIR else 0) r.count
        (hbit.trans (hflbit.trans hmfand.symm))]
      rw [dirDelta_recorded_bit r r.count, signedSum_cons]
      exact emod_congr _ _ (by ring)

/-- C1 witness: a fresh stepper runs two requests with opposite
directions (counts 2 and 1) to completion in exactly three events. -/
theorem c1_total_steps_witness :
    handlerOk (enqueue_all configState
      [⟨40, 2, 0, true⟩, ⟨50, 1, 0, false⟩]) = true ∧
    (runScenario configState [⟨40, 2, 0, true⟩, ⟨50, 1, 0, false⟩] 3).2 =
      totalCounts [⟨40, 2, 0, true⟩, ⟨50, 1, 0, false⟩] ∧
    (runScenario configState [⟨40, 2, 0, true⟩, ⟨50, 1, 0, false⟩] 3).1.armed
      = false ∧
    (runScenario configState [⟨40, 2, 0, true⟩, ⟨50, 1, 0, false⟩] 3).1.s.count
      = 0 ∧
    ((runScenario configState
        [⟨40, 2, 0, true⟩, ⟨50, 1, 0, false⟩] 3).1.s.position : Int) =
      ((configState.s.position : Int) +
        signedSum [⟨40, 2, 0, true⟩, ⟨50, 1, 0, false⟩]) % 4294967296 ∧
    ((fire_event configState).s.position =
        (configState.s.position + 1) % 4294967296 ∨
      (fire_event configState).s.position =
        (configState.s.position + 4294967295) % 4294967296) :=
  c1_total_steps configState [⟨40, 2, 0, true⟩, ⟨50, 1, 0, false⟩] 3 configState
    rfl rfl rfl (by decide) (by decide) (by decide) (by decide)
